import Mathlib

/-!
# Beanstalkd tube-set endpoint: shallow embedding

Embedding of `endpoint/beanstalkd/benstalkd.go`.  Stateful methods are written
in explicit state-passing style: a method takes the receiver value and returns
the updated receiver together with the list of calls it issued on its
collaborators and its Go-level result.  Everything on the far side of the
network, and the library routines the endpoint calls, are fields of `World`.

Conventions
* a Go `error` is `Option Error`, `none` being `nil`;
* a Go pointer or interface value is an `Option`, `none` being `nil`;
* a Go `[]byte` is `GoBytes = Option (List Byte)`, `none` being the nil slice;
* a Go `string` built from bytes is the byte sequence itself (`GoString`);
* a dereference of a nil pointer ends the method with `Outcome.nilDeref`;
* the mutex calls `Lock`/`Unlock` and the `context` values carry no data the
  methods read, so they do not appear in the sequential model.
-/

namespace Beanstalkd

/-! ## Go values -/

/-- One octet. -/
abbrev Byte := Fin 256

/-- Contents of a non-nil byte slice. -/
abbrev Bytes := List Byte

/-- Go value of type `[]byte`; `none` is the nil slice. -/
abbrev GoBytes := Option Bytes

/-- Go `string` seen as its bytes. -/
abbrev GoString := List Byte

/-- Go error value (the non-nil case of the `error` interface). -/
structure Error where
  msg : String
  deriving DecidableEq, Repr

/-- Go `map[string]string`, as an association list. -/
abbrev StatMap := List (String × String)

/-- Go index expression `m[k]` on a `map[string]string`: the zero value `""`
when the key is absent. -/
def StatMap.index (m : StatMap) (k : String) : String :=
  (m.lookup k).getD ""

/-- Go conversion `string(b)` of a byte slice: the same bytes, the nil slice
giving the empty string. -/
def stringOfBytes (b : GoBytes) : GoString :=
  b.getD []

/-- Byte with the given code (reduced modulo 256). -/
def byteOfNat (n : Nat) : Byte :=
  ⟨n % 256, Nat.mod_lt n (by decide)⟩

/-- Bytes of an ASCII text. -/
def ascii (s : String) : Bytes :=
  s.toList.map (fun c => byteOfNat c.toNat)

/-! ## `encoding/json` on byte slices -/

/-- Character of the standard base64 alphabet for a six-bit value. -/
def b64Char (n : Nat) : Byte :=
  if n < 26 then byteOfNat (65 + n)
  else if n < 52 then byteOfNat (97 + (n - 26))
  else if n < 62 then byteOfNat (48 + (n - 52))
  else if n = 62 then byteOfNat 43
  else byteOfNat 47

/-- The padding character `=`. -/
def b64Pad : Byte := byteOfNat 61

/-- Encoding of `base64.StdEncoding` (with padding). -/
def base64Std : Bytes → Bytes
  | a :: b :: c :: rest =>
      b64Char (a.val / 4)
        :: b64Char ((a.val % 4) * 16 + b.val / 16)
        :: b64Char ((b.val % 16) * 4 + c.val / 64)
        :: b64Char (c.val % 64)
        :: base64Std rest
  | [a, b] =>
      [b64Char (a.val / 4), b64Char ((a.val % 4) * 16 + b.val / 16),
       b64Char ((b.val % 16) * 4), b64Pad]
  | [a] =>
      [b64Char (a.val / 4), b64Char ((a.val % 4) * 16), b64Pad, b64Pad]
  | [] => []

/-- The double quote. -/
def quote : Byte := byteOfNat 34

/-- Result of `json.Marshal` on a value of type `[]byte`: `null` for the nil
slice, otherwise the base64 text between double quotes.  The call cannot
fail on this type. -/
def jsonMarshal : GoBytes → Bytes
  | none => ascii "null"
  | some b => quote :: (base64Std b ++ [quote])

/-! ## Rule messages (`types.RuleMsg`) -/

/-- The fields of `types.RuleMsg` that `types.NewMsg` fills (`MsgType` is the
Go field `Type`). -/
structure RuleMsg where
  Ts : Nat
  Id : String
  MsgType : String
  DataType : String
  Metadata : StatMap
  Data : GoString
  deriving DecidableEq, Repr

/-- What `types.NewMsg` draws from its surroundings when called with
timestamp 0: a fresh identifier and the current time. -/
structure Stamp where
  id : String
  now : Nat
  deriving DecidableEq, Repr

/-- The call `types.NewMsg(0, msgType, types.JSON, metaData, data)`. -/
def NewMsg (st : Stamp) (msgType : String) (metaData : StatMap) (data : GoString) : RuleMsg :=
  { Ts := st.now, Id := st.id, MsgType := msgType, DataType := "JSON",
    Metadata := metaData, Data := data }

/-- Constant `BEANSTALKD_DATA_MSG_TYPE`. -/
def BEANSTALKD_DATA_MSG_TYPE : String := "BEANSTALKD_DATA"

/-- Constant `DefaultTube`. -/
def DefaultTube : String := "default"

/-! ## Request and response messages -/

/-- Go `textproto.MIMEHeader`. -/
abbrev MIMEHeader := List (String × List String)

/-- Struct `RequestMessage`. -/
structure RequestMessage where
  headers : Option MIMEHeader := none
  body : GoBytes := none
  stats : StatMap := []
  msg : Option RuleMsg := none
  statusCode : Int := 0
  err : Option Error := none
  deriving DecidableEq, Repr

namespace RequestMessage

/-- Method `Body`. -/
def Body (r : RequestMessage) : GoBytes := r.body

/-- Method `Headers`: allocates the header map on first use. -/
def Headers (r : RequestMessage) : RequestMessage × MIMEHeader :=
  match r.headers with
  | none => ({ r with headers := some [] }, [])
  | some h => (r, h)

/-- Method `From`. -/
def From (_r : RequestMessage) : String := ""

/-- Method `GetParam`. -/
def GetParam (_r : RequestMessage) (_key : String) : String := ""

/-- Method `SetMsg`. -/
def SetMsg (r : RequestMessage) (msg : Option RuleMsg) : RequestMessage :=
  { r with msg := msg }

/-- Method `GetMsg`: builds and stores the message when none is stored. -/
def GetMsg (st : Stamp) (r : RequestMessage) : RequestMessage × RuleMsg :=
  match r.msg with
  | none =>
      let ruleMsg := NewMsg st BEANSTALKD_DATA_MSG_TYPE r.stats (stringOfBytes r.Body)
      ({ r with msg := some ruleMsg }, ruleMsg)
  | some m => (r, m)

/-- Method `SetStatusCode`. -/
def SetStatusCode (r : RequestMessage) (statusCode : Int) : RequestMessage :=
  { r with statusCode := statusCode }

/-- Method `SetBody`. -/
def SetBody (r : RequestMessage) (body : GoBytes) : RequestMessage :=
  { r with body := body }

/-- Method `SetError`. -/
def SetError (r : RequestMessage) (err : Option Error) : RequestMessage :=
  { r with err := err }

/-- Method `GetError`. -/
def GetError (r : RequestMessage) : Option Error := r.err

end RequestMessage

/-- Struct `ResponseMessage`. -/
structure ResponseMessage where
  headers : Option MIMEHeader := none
  body : GoBytes := none
  stats : StatMap := []
  msg : Option RuleMsg := none
  statusCode : Int := 0
  err : Option Error := none
  deriving DecidableEq, Repr

namespace ResponseMessage

/-- Method `Body`: the JSON rendering of the stored bytes. -/
def Body (r : ResponseMessage) : GoBytes := some (jsonMarshal r.body)

/-- Method `Headers`: allocates the header map on first use. -/
def Headers (r : ResponseMessage) : ResponseMessage × MIMEHeader :=
  match r.headers with
  | none => ({ r with headers := some [] }, [])
  | some h => (r, h)

/-- Method `From`. -/
def From (_r : ResponseMessage) : String := ""

/-- Method `GetParam`. -/
def GetParam (_r : ResponseMessage) (_key : String) : String := ""

/-- Method `SetMsg`. -/
def SetMsg (r : ResponseMessage) (msg : Option RuleMsg) : ResponseMessage :=
  { r with msg := msg }

/-- Method `GetMsg`: builds and stores the message when none is stored. -/
def GetMsg (st : Stamp) (r : ResponseMessage) : ResponseMessage × RuleMsg :=
  match r.msg with
  | none =>
      let ruleMsg := NewMsg st BEANSTALKD_DATA_MSG_TYPE r.stats (stringOfBytes r.Body)
      ({ r with msg := some ruleMsg }, ruleMsg)
  | some m => (r, m)

/-- Method `SetStatusCode`. -/
def SetStatusCode (r : ResponseMessage) (statusCode : Int) : ResponseMessage :=
  { r with statusCode := statusCode }

/-- Method `SetBody`. -/
def SetBody (r : ResponseMessage) (body : GoBytes) : ResponseMessage :=
  { r with body := body }

/-- Method `getBody`. -/
def getBody (r : ResponseMessage) : GoBytes := r.body

/-- Method `SetError`. -/
def SetError (r : ResponseMessage) (err : Option Error) : ResponseMessage :=
  { r with err := err }

/-- Method `GetError`. -/
def GetError (r : ResponseMessage) : Option Error := r.err

end ResponseMessage

/-- A method call on a request message other than `SetMsg`. -/
inductive ReqOp where
  | getMsg (st : Stamp)
  | setBody (body : GoBytes)
  | setStatusCode (statusCode : Int)
  | setError (err : Option Error)
  | headers
  deriving DecidableEq, Repr

/-- The request message after one such call. -/
def ReqOp.apply : ReqOp → RequestMessage → RequestMessage
  | .getMsg st, r => (r.GetMsg st).1
  | .setBody body, r => r.SetBody body
  | .setStatusCode n, r => r.SetStatusCode n
  | .setError e, r => r.SetError e
  | .headers, r => r.Headers.1

/-- The request message after a sequence of such calls, in order. -/
def RequestMessage.after (r : RequestMessage) (ops : List ReqOp) : RequestMessage :=
  ops.foldl (fun acc op => op.apply acc) r

/-! ## Collaborators of the endpoint -/

/-- Value of `RuleConfig.Logger` when one is configured. -/
structure Logger where
  name : String
  deriving DecidableEq, Repr

/-- The part of `types.Config` the endpoint reads: the optional logger. -/
structure RuleConfig where
  Logger : Option Logger := none
  deriving DecidableEq, Repr

/-- Go `types.Configuration`, the raw settings handed to `Init`. -/
abbrev Configuration := List (String × String)

/-- Struct `TubesetConfig`. -/
structure TubesetConfig where
  Server : String
  Tubesets : List String
  Interval : String
  Timeout : String
  deriving DecidableEq, Repr

/-- Go `beanstalk.Tube`: the tube that tube-scoped commands of a connection
address. -/
structure Tube where
  Name : String
  deriving DecidableEq, Repr

/-- Go `beanstalk.Conn`: an open connection, identified by the address it was
dialled to, with its embedded `Tube`. -/
structure Conn where
  addr : String
  Tube : Tube
  deriving DecidableEq, Repr

/-- Go `beanstalk.TubeSet`: a connection pointer and the watched tube names. -/
structure TubeSet where
  Conn : Option Conn
  Name : List String
  deriving DecidableEq, Repr

/-- Go `beanstalk.NewTubeSet(c, name...)`. -/
def NewTubeSet (c : Conn) (name : List String) : TubeSet :=
  { Conn := some c, Name := name }

/-- A non-nil `endpointApi.Router`; `GetId` is its identifier. -/
structure Router where
  GetId : String
  deriving DecidableEq, Repr

/-- Go `endpoint.Exchange`. -/
structure Exchange where
  In : RequestMessage
  Out : ResponseMessage
  deriving DecidableEq, Repr

/-- State of a `cron.Cron` of `robfig/cron/v3` as far as the endpoint drives
it: whether the timing goroutine runs, the registered entries (identifier and
schedule text) and the last identifier handed out. -/
structure Cron where
  running : Bool
  entries : List (Nat × String)
  nextID : Nat
  deriving DecidableEq, Repr

/-- A call issued by the endpoint on one of its collaborators, with the
receiver as it is when the call is made. -/
inductive Call where
  | printf (format : String) (err : Error)
  | dial (network : String) (addr : String)
  | reserve (t : TubeSet) (timeout : Nat)
  | statsJob (c : Conn) (id : Nat)
  | delete (c : Conn) (id : Nat)
  | connClose (c : Conn)
  | cronRemove (id : Nat)
  | cronStop
  | cronAddFunc (spec : String)
  | cronStart
  | doProcess (router : Router) (exchange : Exchange)
  deriving DecidableEq, Repr

/-- How a method ends: it returns a value or it dereferences a nil pointer. -/
inductive Outcome (α : Type) where
  | returned (a : α)
  | nilDeref
  deriving DecidableEq, Repr

/-- The surroundings of the endpoint: the library routines it calls and the
answers of the queue server. -/
structure World where
  /-- Go `maps.Map2Struct(configuration, &x.Config)`: the decoded settings and
  the decoding error. -/
  Map2Struct : Configuration → TubesetConfig → TubesetConfig × Option Error
  /-- Go `time.ParseDuration`, the duration in nanoseconds. -/
  ParseDuration : String → Except Error Nat
  /-- Go `beanstalk.Dial("tcp", addr)`. -/
  Dial : String → Except Error Conn
  /-- Go `(*TubeSet).Reserve(timeout)` on a tube set whose connection is open:
  job identifier and job body (the library allocates the body it reads). -/
  Reserve : Conn → List String → Nat → Except Error (Nat × Bytes)
  /-- Go `(*Conn).StatsJob(id)`. -/
  StatsJob : Conn → Nat → Except Error StatMap
  /-- Go `(*Conn).Delete(id)`. -/
  Delete : Conn → Nat → Option Error
  /-- The schedule parser behind `(*Cron).AddFunc`: the error for a rejected
  expression. -/
  ParseSchedule : String → Option Error
  /-- Whether `SharedNode.Init` takes the address for a reference into the
  shared pool, in which case it does not run the factory. -/
  fromPool : String → Bool

namespace Cron

/-- Go `cron.New(...)`. -/
def New : Cron := { running := false, entries := [], nextID := 0 }

/-- Go `(*Cron).Remove(id)`. -/
def Remove (c : Cron) (id : Nat) : Cron :=
  { c with entries := c.entries.filter (fun e => e.1 ≠ id) }

/-- Go `(*Cron).Stop()`. -/
def Stop (c : Cron) : Cron := { c with running := false }

/-- Go `(*Cron).Start()`. -/
def Start (c : Cron) : Cron := { c with running := true }

/-- Go `(*Cron).AddFunc(spec, cmd)`: identifier 0 and the error when the
expression is rejected, else the next identifier. -/
def AddFunc (w : World) (c : Cron) (spec : String) : Cron × Nat × Option Error :=
  match w.ParseSchedule spec with
  | some err => (c, 0, some err)
  | none =>
      ({ c with nextID := c.nextID + 1, entries := c.entries ++ [(c.nextID + 1, spec)] },
        c.nextID + 1, none)

end Cron

/-! ## The endpoint -/

/-- Struct `BeanstalkdTubeSet`.  `sharedInit` is what `SharedNode.IsInit`
reports of the embedded `base.SharedNode`. -/
structure BeanstalkdTubeSet where
  sharedInit : Bool := false
  RuleConfig : RuleConfig := {}
  Config : TubesetConfig
  Router : Option Router := none
  tubeset : Option TubeSet := none
  cronTask : Option Cron := none
  taskId : Nat := 0
  deriving DecidableEq, Repr

/-- What a method of the endpoint leaves behind: the receiver, the calls it
issued in order, and how it ended. -/
structure Step (α : Type) where
  state : BeanstalkdTubeSet
  calls : List Call
  outcome : Outcome α

/-- What `initClient` and `SharedNode.Init` leave behind. -/
structure InitStep where
  state : BeanstalkdTubeSet
  calls : List Call
  tubeset : Option TubeSet
  err : Option Error

namespace BeanstalkdTubeSet

/-- Method `New`. -/
def New : BeanstalkdTubeSet :=
  { Config := { Server := "127.0.0.1:11300", Tubesets := [DefaultTube],
                Interval := "@every 5s", Timeout := "5m" } }

/-- Method `Printf`: a log call when a logger is configured. -/
def Printf (x : BeanstalkdTubeSet) (format : String) (err : Error) : List Call :=
  match x.RuleConfig.Logger with
  | some _ => [Call.printf format err]
  | none => []

/-- Method `initClient`. -/
def initClient (w : World) (x : BeanstalkdTubeSet) : InitStep :=
  match x.tubeset with
  | some t => ⟨x, [], some t, none⟩
  | none =>
      match w.Dial x.Config.Server with
      | .error err => ⟨x, [Call.dial "tcp" x.Config.Server], none, some err⟩
      | .ok conn =>
          let t := NewTubeSet conn x.Config.Tubesets
          ⟨{ x with tubeset := some t }, [Call.dial "tcp" x.Config.Server], some t, none⟩

/-- Library method `SharedNode.Init(ruleConfig, nodeType, server, initNow, f)`
with `f` the closure around `initClient`: it records the factory, and unless
the address refers to the shared pool it runs the factory at once when
`initNow` is set and returns the factory's error. -/
def SharedNodeInit (w : World) (x : BeanstalkdTubeSet) (server : String) (initNow : Bool) :
    InitStep :=
  let x1 := { x with sharedInit := true }
  if w.fromPool server then ⟨x1, [], none, none⟩
  else if initNow then
    let r := initClient w x1
    ⟨r.state, r.calls, r.tubeset, r.err⟩
  else ⟨x1, [], none, none⟩

/-- Method `Init`. -/
def Init (w : World) (x : BeanstalkdTubeSet) (ruleConfig : Beanstalkd.RuleConfig)
    (configuration : Configuration) : Step (Option Error) :=
  let decoded := w.Map2Struct configuration x.Config
  let err := decoded.2
  let x1 := { x with Config := decoded.1, RuleConfig := ruleConfig }
  let r := SharedNodeInit w x1 x1.Config.Server true
  ⟨r.state, r.calls, .returned err⟩

/-- Method `Close`. -/
def Close (x : BeanstalkdTubeSet) : Step (Option Error) :=
  let s1 : BeanstalkdTubeSet × List Call :=
    match x.cronTask with
    | some c =>
        if x.taskId ≠ 0 then
          ({ x with cronTask := some (c.Remove x.taskId) }, [Call.cronRemove x.taskId])
        else (x, [])
    | none => (x, [])
  let s2 : BeanstalkdTubeSet × List Call :=
    match s1.1.cronTask with
    | some c => ({ s1.1 with cronTask := some c.Stop }, s1.2 ++ [Call.cronStop])
    | none => s1
  let s3 : BeanstalkdTubeSet × List Call :=
    match s2.1.tubeset with
    | some t =>
        match t.Conn with
        | some c => ({ s2.1 with tubeset := none }, s2.2 ++ [Call.connClose c])
        | none => s2
    | none => s2
  ⟨s3.1, s3.2, .returned none⟩

/-- Method `Id`. -/
def Id (x : BeanstalkdTubeSet) : String := x.Config.Server

/-- Method `AddRouter`: the updated endpoint, the returned identifier and the
returned error. -/
def AddRouter (x : BeanstalkdTubeSet) (router : Option Beanstalkd.Router) :
    BeanstalkdTubeSet × String × Option Error :=
  match router with
  | none => (x, "", some ⟨"router cannot be nil"⟩)
  | some r =>
      match x.Router with
      | some _ => (x, "", some ⟨"duplicate router"⟩)
      | none => ({ x with Router := some r }, r.GetId, none)

/-- Method `RemoveRouter`. -/
def RemoveRouter (x : BeanstalkdTubeSet) (_routerId : String) :
    BeanstalkdTubeSet × Option Error :=
  ({ x with Router := none }, none)

/-- Method `Use`: `x.tubeset.Conn.Tube.Name = tube`; `none` when a pointer on
the way is nil. -/
def Use (x : BeanstalkdTubeSet) (tube : String) : Option BeanstalkdTubeSet :=
  match x.tubeset with
  | none => none
  | some t =>
      match t.Conn with
      | none => none
      | some c =>
          some { x with tubeset := some { t with Conn := some { c with Tube := { Name := tube } } } }

/-- Method `pop`, called with a non-nil router (its one call site checks
`x.Router != nil`). -/
def pop (w : World) (x : BeanstalkdTubeSet) (router : Beanstalkd.Router) : Step (Option Error) :=
  match w.ParseDuration x.Config.Timeout with
  | .error err => ⟨x, x.Printf "parse duration error %v " err, .returned (some err)⟩
  | .ok timeout =>
  match x.tubeset with
  | none => ⟨x, [], .nilDeref⟩
  | some t =>
  match t.Conn with
  | none => ⟨x, [], .nilDeref⟩
  | some c =>
  match w.Reserve c t.Name timeout with
  | .error err =>
      ⟨x, Call.reserve t timeout :: x.Printf "reserve job error %v " err, .returned (some err)⟩
  | .ok (id, data) =>
  match w.StatsJob c id with
  | .error err =>
      ⟨x, Call.reserve t timeout :: Call.statsJob c id
            :: x.Printf "get job stats error %v " err,
        .returned (some err)⟩
  | .ok stat =>
  match x.Use (stat.index "tube") with
  | none => ⟨x, [Call.reserve t timeout, Call.statsJob c id], .nilDeref⟩
  | some x1 =>
  match x1.tubeset.bind (fun t1 => t1.Conn) with
  | none => ⟨x1, [Call.reserve t timeout, Call.statsJob c id], .nilDeref⟩
  | some c1 =>
  match w.Delete c1 id with
  | some err =>
      ⟨x1, Call.reserve t timeout :: Call.statsJob c id :: Call.delete c1 id
            :: x1.Printf "delete job error %v " err,
        .returned (some err)⟩
  | none =>
      let exchange : Exchange :=
        { In := { body := some data, stats := stat },
          Out := { body := some data, stats := stat } }
      ⟨x1, [Call.reserve t timeout, Call.statsJob c id, Call.delete c1 id,
            Call.doProcess router exchange],
        .returned none⟩

/-- The function `Start` registers with the scheduler: one tick. -/
def tick (w : World) (x : BeanstalkdTubeSet) : Step (Option Error) :=
  match x.Router with
  | some router => pop w x router
  | none => ⟨x, [], .returned none⟩

/-- Method `Start`. -/
def Start (w : World) (x : BeanstalkdTubeSet) : Step (Option Error) :=
  let r : InitStep :=
    if x.sharedInit then ⟨x, [], none, none⟩
    else SharedNodeInit w x x.Config.Server true
  -- `err = x.SharedNode.Init(...)`; the value is replaced by `eid, err := ...` below
  let _err := r.err
  let x1 := r.state
  let calls1 : List Call :=
    match x1.cronTask with
    | some _ => r.calls ++ [Call.cronStop]
    | none => r.calls
  let added := Cron.AddFunc w Cron.New x1.Config.Interval
  let eid := added.2.1
  let err := added.2.2
  ⟨{ x1 with cronTask := some added.1.Start, taskId := eid },
    calls1 ++ [Call.cronAddFunc x1.Config.Interval, Call.cronStart],
    .returned err⟩

end BeanstalkdTubeSet

/-- Whether a call is a `DoProcess`. -/
def isDoProcess : Call → Bool
  | Call.doProcess _ _ => true
  | _ => false

/-- Whether a call is a `Delete`. -/
def isDelete : Call → Bool
  | Call.delete _ _ => true
  | _ => false

/-- Whether a call closes a connection. -/
def isConnClose : Call → Bool
  | Call.connClose _ => true
  | _ => false

/-- Whether a call is a `Dial`. -/
def isDial : Call → Bool
  | Call.dial _ _ => true
  | _ => false

/-- Number of `DoProcess` calls in a list of calls. -/
def doProcessCount (cs : List Call) : Nat := cs.countP isDoProcess

/-- Number of `Delete` calls in a list of calls. -/
def deleteCount (cs : List Call) : Nat := cs.countP isDelete

/-- Number of connection closes in a list of calls. -/
def connCloseCount (cs : List Call) : Nat := cs.countP isConnClose

/-- Number of `Dial` calls in a list of calls. -/
def dialCount (cs : List Call) : Nat := cs.countP isDial

/-- The connection an endpoint can reach, if any: `x.tubeset.Conn`. -/
def connection (x : BeanstalkdTubeSet) : Option Conn :=
  x.tubeset.bind (fun t => t.Conn)

open BeanstalkdTubeSet

/-- The connection of `c` after `Use(tube)`. -/
def switched (c : Conn) (tube : String) : Conn :=
  { c with Tube := { Name := tube } }

/-- The endpoint after `Use(tube)` on a tube set `t` with connection `c`. -/
def afterUse (x : BeanstalkdTubeSet) (t : TubeSet) (c : Conn) (tube : String) :
    BeanstalkdTubeSet :=
  { x with tubeset := some { t with Conn := some (switched c tube) } }

/-- The ways a poll cycle can run, by the answers of the surroundings. -/
inductive PopRun (w : World) (x : BeanstalkdTubeSet) (router : Router) : Prop where
  | parseError (err : Error)
      (hd : w.ParseDuration x.Config.Timeout = .error err)
      (h : x.pop w router
        = ⟨x, x.Printf "parse duration error %v " err, .returned (some err)⟩)
  | nilTubeset (d : Nat)
      (hd : w.ParseDuration x.Config.Timeout = .ok d)
      (hn : connection x = none)
      (h : x.pop w router = ⟨x, [], .nilDeref⟩)
  | reserveError (err : Error) (d : Nat) (t : TubeSet) (c : Conn)
      (hd : w.ParseDuration x.Config.Timeout = .ok d) (ht : x.tubeset = some t)
      (hc : t.Conn = some c) (hr : w.Reserve c t.Name d = .error err)
      (h : x.pop w router
        = ⟨x, Call.reserve t d :: x.Printf "reserve job error %v " err, .returned (some err)⟩)
  | statsError (err : Error) (d : Nat) (t : TubeSet) (c : Conn) (id : Nat) (data : Bytes)
      (hd : w.ParseDuration x.Config.Timeout = .ok d) (ht : x.tubeset = some t)
      (hc : t.Conn = some c) (hr : w.Reserve c t.Name d = .ok (id, data))
      (hs : w.StatsJob c id = .error err)
      (h : x.pop w router
        = ⟨x, Call.reserve t d :: Call.statsJob c id
              :: x.Printf "get job stats error %v " err,
            .returned (some err)⟩)
  | deleteError (err : Error) (d : Nat) (t : TubeSet) (c : Conn) (id : Nat) (data : Bytes)
      (stat : StatMap)
      (hd : w.ParseDuration x.Config.Timeout = .ok d) (ht : x.tubeset = some t)
      (hc : t.Conn = some c) (hr : w.Reserve c t.Name d = .ok (id, data))
      (hs : w.StatsJob c id = .ok stat)
      (hx : w.Delete (switched c (stat.index "tube")) id = some err)
      (h : x.pop w router
        = ⟨afterUse x t c (stat.index "tube"),
            Call.reserve t d :: Call.statsJob c id
              :: Call.delete (switched c (stat.index "tube")) id
              :: (afterUse x t c (stat.index "tube")).Printf "delete job error %v " err,
            .returned (some err)⟩)
  | success (d : Nat) (t : TubeSet) (c : Conn) (id : Nat) (data : Bytes) (stat : StatMap)
      (hd : w.ParseDuration x.Config.Timeout = .ok d) (ht : x.tubeset = some t)
      (hc : t.Conn = some c) (hr : w.Reserve c t.Name d = .ok (id, data))
      (hs : w.StatsJob c id = .ok stat)
      (hx : w.Delete (switched c (stat.index "tube")) id = none)
      (h : x.pop w router
        = ⟨afterUse x t c (stat.index "tube"),
            [Call.reserve t d, Call.statsJob c id,
              Call.delete (switched c (stat.index "tube")) id,
              Call.doProcess router
                { In := { body := some data, stats := stat },
                  Out := { body := some data, stats := stat } }],
            .returned none⟩)

/-! ## Concrete surroundings used to evaluate the model -/

/-- The connection `beanstalk.Dial` returns for an address: fresh, using the
tube `default`. -/
def dialled (addr : String) : Conn :=
  { addr := addr, Tube := { Name := DefaultTube } }

/-- A server holding one ready job in tube `orders` with body `order-42`; every
library routine succeeds, durations `2s` and `5m` are the ones that parse. -/
def readyWorld : World :=
  { Map2Struct := fun _ c => (c, none)
    ParseDuration := fun s =>
      if s = "2s" then .ok 2000000000
      else if s = "5m" then .ok 300000000000
      else .error ⟨"time: invalid duration"⟩
    Dial := fun addr => .ok (dialled addr)
    Reserve := fun _ _ _ => .ok (1, ascii "order-42")
    StatsJob := fun _ _ => .ok [("tube", "orders"), ("age", "0")]
    Delete := fun _ _ => none
    ParseSchedule := fun _ => none
    fromPool := fun _ => false }

/-- As `readyWorld`, but the server answers `delete` with an error. -/
def deleteFailsWorld : World :=
  { readyWorld with Delete := fun _ _ => some ⟨"not found"⟩ }

/-- As `readyWorld`, but no job becomes ready within the timeout. -/
def emptyQueueWorld : World :=
  { readyWorld with Reserve := fun _ _ _ => .error ⟨"reserve-with-timeout: timeout"⟩ }

/-- As `readyWorld`, but the server cannot be reached. -/
def unreachableWorld : World :=
  { readyWorld with Dial := fun _ => .error ⟨"dial tcp: connection refused"⟩ }

/-- As `readyWorld`, but the scheduler rejects every expression. -/
def badScheduleWorld : World :=
  { readyWorld with ParseSchedule := fun _ => some ⟨"expected 5 to 6 fields"⟩ }

/-- The router used in the evaluations. -/
def demoRouter : Router := { GetId := "r1" }

/-- Settings of the scenario: one tube `orders`, timeout `2s`. -/
def ordersConfig : TubesetConfig :=
  { Server := "q:11300", Tubesets := ["orders"], Interval := "@every 1s", Timeout := "2s" }

/-- An endpoint that is connected and has a router attached. -/
def connected : BeanstalkdTubeSet :=
  { sharedInit := true, Config := ordersConfig, Router := some demoRouter,
    tubeset := some (NewTubeSet (dialled "q:11300") ["orders"]) }

/-- The poll cycle of `x` fails with `err` while parsing the timeout, while
reserving, or while reading the job's statistics. -/
def EarlyFailure (w : World) (x : BeanstalkdTubeSet) (err : Error) : Prop :=
  w.ParseDuration x.Config.Timeout = .error err
  ∨ (∃ d t c, w.ParseDuration x.Config.Timeout = .ok d ∧ x.tubeset = some t ∧ t.Conn = some c
        ∧ w.Reserve c t.Name d = .error err)
  ∨ (∃ d t c id data, w.ParseDuration x.Config.Timeout = .ok d ∧ x.tubeset = some t
        ∧ t.Conn = some c ∧ w.Reserve c t.Name d = .ok (id, data)
        ∧ w.StatsJob c id = .error err)

/-! ## General facts -/

/-- The test vectors of RFC 4648 and the scenario's body, through the base64
model. -/
theorem base64Std_vectors :
    base64Std (ascii "") = ascii ""
    ∧ base64Std (ascii "f") = ascii "Zg=="
    ∧ base64Std (ascii "fo") = ascii "Zm8="
    ∧ base64Std (ascii "foo") = ascii "Zm9v"
    ∧ base64Std (ascii "foob") = ascii "Zm9vYg=="
    ∧ base64Std (ascii "fooba") = ascii "Zm9vYmE="
    ∧ base64Std (ascii "foobar") = ascii "Zm9vYmFy"
    ∧ base64Std [255, 255, 254] = ascii "///+"
    ∧ base64Std (ascii "order-42") = ascii "b3JkZXItNDI=" := by
  decide

theorem doProcessCount_Printf (x : BeanstalkdTubeSet) (f : String) (e : Error) :
    doProcessCount (x.Printf f e) = 0 := by
  unfold Printf doProcessCount
  cases x.RuleConfig.Logger <;> simp [isDoProcess]

theorem doProcessCount_cons (c : Call) (cs : List Call) :
    doProcessCount (c :: cs) = doProcessCount cs + (if isDoProcess c then 1 else 0) := by
  simp [doProcessCount, List.countP_cons]

theorem deleteCount_cons (c : Call) (cs : List Call) :
    deleteCount (c :: cs) = deleteCount cs + (if isDelete c then 1 else 0) := by
  simp [deleteCount, List.countP_cons]

theorem deleteCount_Printf (x : BeanstalkdTubeSet) (f : String) (e : Error) :
    deleteCount (x.Printf f e) = 0 := by
  unfold Printf deleteCount
  cases x.RuleConfig.Logger <;> simp [isDelete]

theorem mem_Printf (x : BeanstalkdTubeSet) (f : String) (e : Error) (c : Call)
    (h : c ∈ x.Printf f e) : c = Call.printf f e := by
  unfold Printf at h
  cases hl : x.RuleConfig.Logger <;> simp [hl] at h
  exact h

theorem initClient_Config (w : World) (x : BeanstalkdTubeSet) :
    (initClient w x).state.Config = x.Config := by
  unfold initClient
  cases x.tubeset with
  | some t => rfl
  | none =>
      cases hd : w.Dial x.Config.Server <;> simp [hd]

theorem SharedNodeInit_Config (w : World) (x : BeanstalkdTubeSet) (server : String)
    (initNow : Bool) : (SharedNodeInit w x server initNow).state.Config = x.Config := by
  unfold SharedNodeInit
  by_cases hp : w.fromPool server = true
  · simp [hp]
  · cases initNow <;> simp [hp, initClient_Config]

theorem Init_outcome (w : World) (x : BeanstalkdTubeSet) (rc : Beanstalkd.RuleConfig)
    (conf : Configuration) :
    (x.Init w rc conf).outcome = .returned (w.Map2Struct conf x.Config).2 := rfl

theorem Init_Config (w : World) (x : BeanstalkdTubeSet) (rc : Beanstalkd.RuleConfig)
    (conf : Configuration) :
    (x.Init w rc conf).state.Config = (w.Map2Struct conf x.Config).1 := by
  unfold Init
  simp [SharedNodeInit_Config]

theorem pop_of_parse_error (w : World) (x : BeanstalkdTubeSet) (router : Router) (err : Error)
    (h : w.ParseDuration x.Config.Timeout = .error err) :
    x.pop w router = ⟨x, x.Printf "parse duration error %v " err, .returned (some err)⟩ := by
  unfold pop
  simp [h]

theorem pop_of_reserve_error (w : World) (x : BeanstalkdTubeSet) (router : Router) (err : Error)
    (d : Nat) (t : TubeSet) (c : Conn)
    (hd : w.ParseDuration x.Config.Timeout = .ok d) (ht : x.tubeset = some t)
    (hc : t.Conn = some c) (hr : w.Reserve c t.Name d = .error err) :
    x.pop w router
      = ⟨x, Call.reserve t d :: x.Printf "reserve job error %v " err, .returned (some err)⟩ := by
  unfold pop
  simp [hd, ht, hc, hr]

theorem pop_of_stats_error (w : World) (x : BeanstalkdTubeSet) (router : Router) (err : Error)
    (d : Nat) (t : TubeSet) (c : Conn) (id : Nat) (data : Bytes)
    (hd : w.ParseDuration x.Config.Timeout = .ok d) (ht : x.tubeset = some t)
    (hc : t.Conn = some c) (hr : w.Reserve c t.Name d = .ok (id, data))
    (hs : w.StatsJob c id = .error err) :
    x.pop w router
      = ⟨x, Call.reserve t d :: Call.statsJob c id :: x.Printf "get job stats error %v " err,
          .returned (some err)⟩ := by
  unfold pop
  simp [hd, ht, hc, hr, hs]

theorem pop_of_delete_error (w : World) (x : BeanstalkdTubeSet) (router : Router) (err : Error)
    (d : Nat) (t : TubeSet) (c : Conn) (id : Nat) (data : Bytes) (stat : StatMap)
    (hd : w.ParseDuration x.Config.Timeout = .ok d) (ht : x.tubeset = some t)
    (hc : t.Conn = some c) (hr : w.Reserve c t.Name d = .ok (id, data))
    (hs : w.StatsJob c id = .ok stat)
    (hx : w.Delete (switched c (stat.index "tube")) id = some err) :
    x.pop w router
      = ⟨afterUse x t c (stat.index "tube"),
          Call.reserve t d :: Call.statsJob c id
            :: Call.delete (switched c (stat.index "tube")) id
            :: (afterUse x t c (stat.index "tube")).Printf "delete job error %v " err,
          .returned (some err)⟩ := by
  unfold pop
  simp [hd, ht, hc, hr, hs, Use, switched, afterUse] at hx ⊢
  simp [hx]

theorem pop_of_success (w : World) (x : BeanstalkdTubeSet) (router : Router)
    (d : Nat) (t : TubeSet) (c : Conn) (id : Nat) (data : Bytes) (stat : StatMap)
    (hd : w.ParseDuration x.Config.Timeout = .ok d) (ht : x.tubeset = some t)
    (hc : t.Conn = some c) (hr : w.Reserve c t.Name d = .ok (id, data))
    (hs : w.StatsJob c id = .ok stat)
    (hx : w.Delete (switched c (stat.index "tube")) id = none) :
    x.pop w router
      = ⟨afterUse x t c (stat.index "tube"),
          [Call.reserve t d, Call.statsJob c id,
            Call.delete (switched c (stat.index "tube")) id,
            Call.doProcess router
              { In := { body := some data, stats := stat },
                Out := { body := some data, stats := stat } }],
          .returned none⟩ := by
  unfold pop
  simp [hd, ht, hc, hr, hs, Use, switched, afterUse] at hx ⊢
  simp [hx]

theorem pop_of_nil_tubeset (w : World) (x : BeanstalkdTubeSet) (router : Router) (d : Nat)
    (hd : w.ParseDuration x.Config.Timeout = .ok d) (ht : x.tubeset = none) :
    x.pop w router = ⟨x, [], .nilDeref⟩ := by
  unfold pop
  simp [hd, ht]

theorem pop_of_nil_conn (w : World) (x : BeanstalkdTubeSet) (router : Router) (d : Nat)
    (t : TubeSet) (hd : w.ParseDuration x.Config.Timeout = .ok d) (ht : x.tubeset = some t)
    (hc : t.Conn = none) :
    x.pop w router = ⟨x, [], .nilDeref⟩ := by
  unfold pop
  simp [hd, ht, hc]

theorem pop_run (w : World) (x : BeanstalkdTubeSet) (router : Router) : PopRun w x router := by
  cases hd : w.ParseDuration x.Config.Timeout with
  | error err => exact .parseError err hd (pop_of_parse_error w x router err hd)
  | ok d =>
  cases ht : x.tubeset with
  | none =>
      exact .nilTubeset d hd (by simp [connection, ht]) (pop_of_nil_tubeset w x router d hd ht)
  | some t =>
  cases hc : t.Conn with
  | none =>
      exact .nilTubeset d hd (by simp [connection, ht, hc])
        (pop_of_nil_conn w x router d t hd ht hc)
  | some c =>
  cases hr : w.Reserve c t.Name d with
  | error err =>
      exact .reserveError err d t c hd ht hc hr
        (pop_of_reserve_error w x router err d t c hd ht hc hr)
  | ok job =>
  obtain ⟨id, data⟩ := job
  cases hs : w.StatsJob c id with
  | error err =>
      exact .statsError err d t c id data hd ht hc hr hs
        (pop_of_stats_error w x router err d t c id data hd ht hc hr hs)
  | ok stat =>
  cases hx : w.Delete (switched c (stat.index "tube")) id with
  | some err =>
      exact .deleteError err d t c id data stat hd ht hc hr hs hx
        (pop_of_delete_error w x router err d t c id data stat hd ht hc hr hs hx)
  | none =>
      exact .success d t c id data stat hd ht hc hr hs hx
        (pop_of_success w x router d t c id data stat hd ht hc hr hs hx)

/-! ## The claims -/

/-- C1, as stated, fails: with a router attached, the timeout parsed, the job
reserved and its statistics read, a failing `Delete` makes the poll cycle end
without any `DoProcess` call, so the router is not invoked once. -/
theorem pop_delete_failure_dispatch_counterexample :
    connected.Router = some demoRouter
    ∧ deleteFailsWorld.ParseDuration connected.Config.Timeout = .ok 2000000000
    ∧ deleteFailsWorld.Reserve (dialled "q:11300") ["orders"] 2000000000
        = .ok (1, ascii "order-42")
    ∧ deleteFailsWorld.StatsJob (dialled "q:11300") 1 = .ok [("tube", "orders"), ("age", "0")]
    ∧ Call.delete (switched (dialled "q:11300") "orders") 1
        ∈ (connected.pop deleteFailsWorld demoRouter).calls
    ∧ deleteFailsWorld.Delete (switched (dialled "q:11300") "orders") 1 = some ⟨"not found"⟩
    ∧ doProcessCount (connected.pop deleteFailsWorld demoRouter).calls = 0
    ∧ ¬ doProcessCount (connected.tick deleteFailsWorld).calls = 1 := by
  refine ⟨rfl, rfl, rfl, rfl, ?_, rfl, ?_, ?_⟩ <;> decide

/-- C1, amended: in a poll cycle with an attached router in which the timeout
parses, `Reserve` and `StatsJob` succeed and `Delete` then fails, `pop` returns
the error of `Delete`, has issued that one `Delete`, and never calls
`DoProcess`: the router is not invoked in that cycle. -/
theorem pop_delete_failure_no_dispatch (w : World) (x : BeanstalkdTubeSet) (router : Router)
    (err : Error) (d : Nat) (t : TubeSet) (c : Conn) (id : Nat) (data : Bytes) (stat : StatMap)
    (hrt : x.Router = some router)
    (hd : w.ParseDuration x.Config.Timeout = .ok d) (ht : x.tubeset = some t)
    (hc : t.Conn = some c) (hr : w.Reserve c t.Name d = .ok (id, data))
    (hs : w.StatsJob c id = .ok stat)
    (hx : w.Delete (switched c (stat.index "tube")) id = some err) :
    x.tick w = x.pop w router
    ∧ (x.pop w router).outcome = .returned (some err)
    ∧ deleteCount (x.pop w router).calls = 1
    ∧ doProcessCount (x.pop w router).calls = 0 := by
  refine ⟨by simp [tick, hrt], ?_⟩
  rw [pop_of_delete_error w x router err d t c id data stat hd ht hc hr hs hx]
  simp [doProcessCount_cons, deleteCount_cons, doProcessCount_Printf, deleteCount_Printf,
    isDoProcess, isDelete]

/-- Witness of C1 (amended): the scenario's endpoint against a server whose
`delete` fails. -/
theorem pop_delete_failure_no_dispatch_witness :
    connected.tick deleteFailsWorld = connected.pop deleteFailsWorld demoRouter
    ∧ (connected.pop deleteFailsWorld demoRouter).outcome = .returned (some ⟨"not found"⟩)
    ∧ deleteCount (connected.pop deleteFailsWorld demoRouter).calls = 1
    ∧ doProcessCount (connected.pop deleteFailsWorld demoRouter).calls = 0 :=
  pop_delete_failure_no_dispatch deleteFailsWorld connected demoRouter ⟨"not found"⟩
    2000000000 (NewTubeSet (dialled "q:11300") ["orders"]) (dialled "q:11300") 1
    (ascii "order-42") [("tube", "orders"), ("age", "0")] rfl rfl rfl rfl rfl rfl rfl

/-- C2: `AddRouter` returns an error exactly when the router is nil or a
router is already attached; in these cases the endpoint is unchanged (so a
second `AddRouter` keeps the first router); otherwise the given router
becomes the attached one and its identifier is returned with a nil error. -/
theorem AddRouter_spec (x : BeanstalkdTubeSet) (router : Option Router) :
    ((x.AddRouter router).2.2 ≠ none ↔ (router = none ∨ x.Router ≠ none))
    ∧ ((x.AddRouter router).2.2 ≠ none → (x.AddRouter router).1 = x)
    ∧ (∀ r, router = some r → x.Router = none →
        (x.AddRouter router).1.Router = some r ∧ (x.AddRouter router).2.1 = r.GetId
          ∧ (x.AddRouter router).2.2 = none)
    ∧ (∀ r r2, router = some r → x.Router = none →
        ((x.AddRouter router).1.AddRouter (some r2)).2.2 = some ⟨"duplicate router"⟩
          ∧ ((x.AddRouter router).1.AddRouter (some r2)).1.Router = some r) := by
  unfold AddRouter
  cases router with
  | none => simp
  | some r =>
      cases hx : x.Router with
      | none => simp
      | some r0 => simp

/-- C3: a poll cycle in which parsing the timeout, `Reserve` or `StatsJob`
fails returns that error, leaves the endpoint (and with it the active tube) as
it was, and issues neither `Delete` nor `DoProcess`.  `Init` returns the error
of decoding the settings and nothing else, so a timeout text that does not
parse does not make it fail; the poll cycle after such an `Init` returns the
parse error. -/
theorem pop_early_failure (w : World) (x : BeanstalkdTubeSet) (router : Router) (err : Error)
    (h : EarlyFailure w x err) :
    (x.pop w router).outcome = .returned (some err)
    ∧ (x.pop w router).state = x
    ∧ deleteCount (x.pop w router).calls = 0
    ∧ doProcessCount (x.pop w router).calls = 0
    ∧ (∀ (rc : Beanstalkd.RuleConfig) (conf : Configuration) (x0 : BeanstalkdTubeSet),
        (x0.Init w rc conf).outcome = .returned (w.Map2Struct conf x0.Config).2
        ∧ (∀ e, w.ParseDuration (w.Map2Struct conf x0.Config).1.Timeout = .error e →
            ((x0.Init w rc conf).state.pop w router).outcome = .returned (some e))) := by
  have hinit : ∀ (rc : Beanstalkd.RuleConfig) (conf : Configuration) (x0 : BeanstalkdTubeSet),
      (x0.Init w rc conf).outcome = .returned (w.Map2Struct conf x0.Config).2
      ∧ (∀ e, w.ParseDuration (w.Map2Struct conf x0.Config).1.Timeout = .error e →
          ((x0.Init w rc conf).state.pop w router).outcome = .returned (some e)) := by
    intro rc conf x0
    refine ⟨Init_outcome w x0 rc conf, ?_⟩
    intro e he
    rw [← Init_Config w x0 rc conf] at he
    rw [pop_of_parse_error w _ router e he]
  rcases h with h | ⟨d, t, c, hd, ht, hc, hr⟩ | ⟨d, t, c, id, data, hd, ht, hc, hr, hs⟩
  · rw [pop_of_parse_error w x router err h]
    exact ⟨rfl, rfl, deleteCount_Printf _ _ _, doProcessCount_Printf _ _ _, hinit⟩
  · rw [pop_of_reserve_error w x router err d t c hd ht hc hr]
    refine ⟨rfl, rfl, ?_, ?_, hinit⟩
    · simp [deleteCount_cons, deleteCount_Printf, isDelete]
    · simp [doProcessCount_cons, doProcessCount_Printf, isDoProcess]
  · rw [pop_of_stats_error w x router err d t c id data hd ht hc hr hs]
    refine ⟨rfl, rfl, ?_, ?_, hinit⟩
    · simp [deleteCount_cons, deleteCount_Printf, isDelete]
    · simp [doProcessCount_cons, doProcessCount_Printf, isDoProcess]

/-- Witness of C3: the scenario's endpoint polling an empty queue. -/
theorem pop_early_failure_witness :
    (connected.pop emptyQueueWorld demoRouter).outcome
        = .returned (some ⟨"reserve-with-timeout: timeout"⟩)
    ∧ (connected.pop emptyQueueWorld demoRouter).state = connected
    ∧ deleteCount (connected.pop emptyQueueWorld demoRouter).calls = 0
    ∧ doProcessCount (connected.pop emptyQueueWorld demoRouter).calls = 0
    ∧ (∀ (rc : Beanstalkd.RuleConfig) (conf : Configuration) (x0 : BeanstalkdTubeSet),
        (x0.Init emptyQueueWorld rc conf).outcome
            = .returned (emptyQueueWorld.Map2Struct conf x0.Config).2
        ∧ (∀ e, emptyQueueWorld.ParseDuration
                (emptyQueueWorld.Map2Struct conf x0.Config).1.Timeout = .error e →
            ((x0.Init emptyQueueWorld rc conf).state.pop emptyQueueWorld demoRouter).outcome
              = .returned (some e))) :=
  pop_early_failure emptyQueueWorld connected demoRouter ⟨"reserve-with-timeout: timeout"⟩
    (Or.inr (Or.inl ⟨2000000000, NewTubeSet (dialled "q:11300") ["orders"], dialled "q:11300",
      rfl, rfl, rfl, rfl⟩))

/-- C4: when a poll cycle issues `Delete`, its calls begin with `Reserve`, then
`StatsJob` on the connection as it was, then that `Delete` on the same
connection with its active tube name set to the entry `tube` of the
statistics just read; the endpoint keeps that connection. -/
theorem pop_delete_uses_stat_tube (w : World) (x : BeanstalkdTubeSet) (router : Router)
    (c1 : Conn) (id : Nat) (h : Call.delete c1 id ∈ (x.pop w router).calls) :
    ∃ d t c data stat rest,
      w.ParseDuration x.Config.Timeout = .ok d
      ∧ x.tubeset = some t ∧ t.Conn = some c
      ∧ w.Reserve c t.Name d = .ok (id, data)
      ∧ w.StatsJob c id = .ok stat
      ∧ (x.pop w router).calls
          = Call.reserve t d :: Call.statsJob c id :: Call.delete c1 id :: rest
      ∧ c1 = switched c (stat.index "tube")
      ∧ c1.Tube.Name = stat.index "tube"
      ∧ c1.addr = c.addr
      ∧ connection (x.pop w router).state = some c1
      ∧ deleteCount (x.pop w router).calls = 1 := by
  cases pop_run w x router with
  | parseError err hd hp =>
      rw [hp] at h
      exact absurd (mem_Printf _ _ _ _ h) (by simp)
  | nilTubeset d hd hn hp =>
      rw [hp] at h
      simp at h
  | reserveError err d t c hd ht hc hr hp =>
      rw [hp] at h
      simp only [List.mem_cons] at h
      rcases h with h | h
      · simp at h
      · exact absurd (mem_Printf _ _ _ _ h) (by simp)
  | statsError err d t c id0 data hd ht hc hr hs hp =>
      rw [hp] at h
      simp only [List.mem_cons] at h
      rcases h with h | h | h
      · simp at h
      · simp at h
      · exact absurd (mem_Printf _ _ _ _ h) (by simp)
  | deleteError err d t c id0 data stat hd ht hc hr hs hx hp =>
      rw [hp] at h ⊢
      simp only [List.mem_cons] at h
      rcases h with h | h | h | h
      · simp at h
      · simp at h
      · injection h with h1 h2
        subst h1 h2
        refine ⟨d, t, c, data, stat, _, hd, ht, hc, hr, hs, rfl, rfl, rfl, rfl, ?_, ?_⟩
        · simp [connection, afterUse]
        · simp [deleteCount_cons, deleteCount_Printf, isDelete]
      · exact absurd (mem_Printf _ _ _ _ h) (by simp)
  | success d t c id0 data stat hd ht hc hr hs hx hp =>
      rw [hp] at h ⊢
      simp only [List.mem_cons] at h
      rcases h with h | h | h | h | h
      · simp at h
      · simp at h
      · injection h with h1 h2
        subst h1 h2
        refine ⟨d, t, c, data, stat, _, hd, ht, hc, hr, hs, rfl, rfl, rfl, rfl, ?_, ?_⟩
        · simp [connection, afterUse]
        · simp [deleteCount, isDelete]
      · simp at h
      · simp at h

/-- Witness of C4: the scenario's successful poll cycle deletes job 1 with the
active tube `orders`. -/
theorem pop_delete_uses_stat_tube_witness :
    ∃ d t c data stat rest,
      readyWorld.ParseDuration connected.Config.Timeout = .ok d
      ∧ connected.tubeset = some t ∧ t.Conn = some c
      ∧ readyWorld.Reserve c t.Name d = .ok (1, data)
      ∧ readyWorld.StatsJob c 1 = .ok stat
      ∧ (connected.pop readyWorld demoRouter).calls
          = Call.reserve t d :: Call.statsJob c 1
              :: Call.delete (switched (dialled "q:11300") "orders") 1 :: rest
      ∧ switched (dialled "q:11300") "orders" = switched c (stat.index "tube")
      ∧ (switched (dialled "q:11300") "orders").Tube.Name = stat.index "tube"
      ∧ (switched (dialled "q:11300") "orders").addr = c.addr
      ∧ connection (connected.pop readyWorld demoRouter).state
          = some (switched (dialled "q:11300") "orders")
      ∧ deleteCount (connected.pop readyWorld demoRouter).calls = 1 :=
  pop_delete_uses_stat_tube readyWorld connected demoRouter
    (switched (dialled "q:11300") "orders") 1 (by decide)

/-- C5: `Close` returns nil on every endpoint, leaves no reachable connection
(and a nil `tubeset` whenever the tube set it found had a connection), and a
second `Close` returns nil, closes no connection and changes nothing. -/
theorem Close_idempotent (x : BeanstalkdTubeSet) :
    x.Close.outcome = .returned none
    ∧ connection x.Close.state = none
    ∧ ((∀ t, x.tubeset = some t → t.Conn ≠ none) → x.Close.state.tubeset = none)
    ∧ x.Close.state.Close.outcome = .returned none
    ∧ connCloseCount x.Close.state.Close.calls = 0
    ∧ x.Close.state.Close.state = x.Close.state := by
  obtain ⟨si, rc, cfg, rt, ts, ct, tid⟩ := x
  cases ct with
  | none =>
      cases ts with
      | none => simp [Close, connection, connCloseCount]
      | some t =>
          obtain ⟨cn, nm⟩ := t
          cases cn <;> simp [Close, connection, connCloseCount]
  | some c =>
      by_cases h0 : tid = 0
      · subst h0
        cases ts with
        | none => simp [Close, connection, connCloseCount, isConnClose, Cron.Stop]
        | some t =>
            obtain ⟨cn, nm⟩ := t
            cases cn <;> simp [Close, connection, connCloseCount, isConnClose, Cron.Stop]
      · cases ts with
        | none =>
            simp [Close, connection, connCloseCount, isConnClose, Cron.Stop, Cron.Remove, h0,
              List.countP_cons]
        | some t =>
            obtain ⟨cn, nm⟩ := t
            cases cn <;>
              simp [Close, connection, connCloseCount, isConnClose, Cron.Stop, Cron.Remove, h0,
                List.countP_cons]

/-- C6: a poll cycle that returns nil has reserved a job `(id, data)`, read
its statistics `stat`, and called `DoProcess` once, last, on the given router
with an exchange whose request and response both hold `data` and `stat`; the
request `Body()` is `data` and the response `Body()` is the JSON text of
`data`: its standard base64 encoding between double quotes. -/
theorem pop_success_exchange (w : World) (x : BeanstalkdTubeSet) (router : Router)
    (h : (x.pop w router).outcome = .returned none) :
    ∃ d t c id data stat ex,
      w.ParseDuration x.Config.Timeout = .ok d
      ∧ x.tubeset = some t ∧ t.Conn = some c
      ∧ w.Reserve c t.Name d = .ok (id, data)
      ∧ w.StatsJob c id = .ok stat
      ∧ (x.pop w router).calls
          = [Call.reserve t d, Call.statsJob c id,
              Call.delete (switched c (stat.index "tube")) id, Call.doProcess router ex]
      ∧ doProcessCount (x.pop w router).calls = 1
      ∧ ex.In.body = some data ∧ ex.Out.body = some data
      ∧ ex.In.stats = stat ∧ ex.Out.stats = stat
      ∧ ex.In.msg = none ∧ ex.Out.msg = none
      ∧ ex.In.Body = some data
      ∧ ex.Out.Body = some (quote :: (base64Std data ++ [quote]))
      ∧ ex.Out.Body = some (jsonMarshal ex.In.Body) := by
  cases pop_run w x router with
  | parseError err hd hp => rw [hp] at h; simp at h
  | nilTubeset d hd hn hp => rw [hp] at h; simp at h
  | reserveError err d t c hd ht hc hr hp => rw [hp] at h; simp at h
  | statsError err d t c id data hd ht hc hr hs hp => rw [hp] at h; simp at h
  | deleteError err d t c id data stat hd ht hc hr hs hx hp => rw [hp] at h; simp at h
  | success d t c id data stat hd ht hc hr hs hx hp =>
      rw [hp]
      exact ⟨d, t, c, id, data, stat, _, hd, ht, hc, hr, hs, rfl,
        by simp [doProcessCount, isDoProcess], rfl, rfl, rfl, rfl, rfl, rfl, rfl, rfl, rfl⟩

/-- Witness of C6: the scenario, a ready job with body `order-42` in tube
`orders`; the response body is the text `"b3JkZXItNDI="`. -/
theorem pop_success_exchange_witness :
    (∃ d t c id data stat ex,
      readyWorld.ParseDuration connected.Config.Timeout = .ok d
      ∧ connected.tubeset = some t ∧ t.Conn = some c
      ∧ readyWorld.Reserve c t.Name d = .ok (id, data)
      ∧ readyWorld.StatsJob c id = .ok stat
      ∧ (connected.pop readyWorld demoRouter).calls
          = [Call.reserve t d, Call.statsJob c id,
              Call.delete (switched c (stat.index "tube")) id, Call.doProcess demoRouter ex]
      ∧ doProcessCount (connected.pop readyWorld demoRouter).calls = 1
      ∧ ex.In.body = some data ∧ ex.Out.body = some data
      ∧ ex.In.stats = stat ∧ ex.Out.stats = stat
      ∧ ex.In.msg = none ∧ ex.Out.msg = none
      ∧ ex.In.Body = some data
      ∧ ex.Out.Body = some (quote :: (base64Std data ++ [quote]))
      ∧ ex.Out.Body = some (jsonMarshal ex.In.Body))
    ∧ readyWorld.Reserve (dialled "q:11300") ["orders"] 2000000000 = .ok (1, ascii "order-42")
    ∧ quote :: (base64Std (ascii "order-42") ++ [quote])
        = quote :: (ascii "b3JkZXItNDI=" ++ [quote]) :=
  ⟨pop_success_exchange readyWorld connected demoRouter (by decide), rfl, by decide⟩

/-- C7, as stated, fails: the dial inside `Init` fails, `SharedNode.Init`
returns that error, and `Init` nevertheless returns nil. -/
theorem Init_connect_error_counterexample :
    (SharedNodeInit unreachableWorld New New.Config.Server true).err
        = some ⟨"dial tcp: connection refused"⟩
    ∧ dialCount (New.Init unreachableWorld {} []).calls = 1
    ∧ (New.Init unreachableWorld {} []).state.tubeset = none
    ∧ (New.Init unreachableWorld {} []).outcome = .returned none := by
  refine ⟨?_, ?_, ?_, ?_⟩ <;> decide

/-- C7, amended: `Init` returns exactly the error of decoding the settings,
whatever the connection setup inside it returned, and `Start` returns the
scheduler's error whenever the scheduler rejects the configured schedule
expression. -/
theorem Init_Start_errors (w : World) (x : BeanstalkdTubeSet) (rc : Beanstalkd.RuleConfig)
    (conf : Configuration) :
    (x.Init w rc conf).outcome = .returned (w.Map2Struct conf x.Config).2
    ∧ (∀ e, w.ParseSchedule x.Config.Interval = some e →
        (x.Start w).outcome = .returned (some e)) := by
  refine ⟨Init_outcome w x rc conf, ?_⟩
  intro e he
  have hcfg : (if x.sharedInit then (⟨x, [], none, none⟩ : InitStep)
      else SharedNodeInit w x x.Config.Server true).state.Config = x.Config := by
    cases x.sharedInit <;> simp [SharedNodeInit_Config]
  simp only [Start, Cron.AddFunc, hcfg, he]

/-- The rejected schedule of C7 (amended) at a concrete input: `Start` returns
the scheduler's error, and `Init` with an unreachable server returns nil. -/
theorem Init_Start_errors_witness :
    (New.Start badScheduleWorld).outcome = .returned (some ⟨"expected 5 to 6 fields"⟩)
    ∧ (New.Init unreachableWorld {} []).outcome
        = .returned (unreachableWorld.Map2Struct [] New.Config).2 :=
  ⟨(Init_Start_errors badScheduleWorld New {} []).2 ⟨"expected 5 to 6 fields"⟩ rfl,
    (Init_Start_errors unreachableWorld New {} []).1⟩

/-- What `Start` does with a failed connection setup of its own: on an
endpoint that was never initialised and cannot reach its server, with a
schedule the scheduler accepts, `SharedNode.Init` returns the dial error and
`Start` returns nil. -/
theorem Start_connect_error_eval :
    New.sharedInit = false
    ∧ (SharedNodeInit unreachableWorld New New.Config.Server true).err
        = some ⟨"dial tcp: connection refused"⟩
    ∧ (New.Start unreachableWorld).outcome = .returned none := by
  refine ⟨rfl, ?_, ?_⟩ <;> decide

/-- C8, evaluated: whenever the timeout parses and the endpoint holds no tube
set, the poll cycle dials nothing, issues no call at all and ends in a nil
dereference at `x.tubeset.Reserve`. -/
theorem pop_nil_tubeset_derefs (w : World) (x : BeanstalkdTubeSet) (router : Router) (d : Nat)
    (hd : w.ParseDuration x.Config.Timeout = .ok d) (ht : x.tubeset = none) :
    (x.pop w router).outcome = .nilDeref
    ∧ (x.pop w router).calls = []
    ∧ dialCount (x.pop w router).calls = 0
    ∧ (x.pop w router).state = x := by
  rw [pop_of_nil_tubeset w x router d hd ht]
  exact ⟨rfl, rfl, rfl, rfl⟩

/-- The failing input of C8: `Init` against an unreachable server returns nil
and leaves `tubeset` nil; after `AddRouter` and `Start` (both return nil) the
first tick, with the server reachable again, ends in the nil dereference. -/
theorem pop_nil_tubeset_derefs_witness :
    (New.Init unreachableWorld {} []).outcome = .returned none
    ∧ (((New.Init unreachableWorld {} []).state.AddRouter (some demoRouter)).1.Start
          readyWorld).outcome = .returned none
    ∧ ((((New.Init unreachableWorld {} []).state.AddRouter (some demoRouter)).1.Start
          readyWorld).state.tick readyWorld).outcome = .nilDeref
    ∧ ((((New.Init unreachableWorld {} []).state.AddRouter (some demoRouter)).1.Start
          readyWorld).state.pop readyWorld demoRouter).outcome = .nilDeref
    ∧ ((((New.Init unreachableWorld {} []).state.AddRouter (some demoRouter)).1.Start
          readyWorld).state.pop readyWorld demoRouter).calls = []
    ∧ dialCount ((((New.Init unreachableWorld {} []).state.AddRouter (some demoRouter)).1.Start
          readyWorld).state.pop readyWorld demoRouter).calls = 0
    ∧ ((((New.Init unreachableWorld {} []).state.AddRouter (some demoRouter)).1.Start
          readyWorld).state.pop readyWorld demoRouter).state
        = (((New.Init unreachableWorld {} []).state.AddRouter (some demoRouter)).1.Start
          readyWorld).state :=
  ⟨by decide, by decide, by decide,
    pop_nil_tubeset_derefs readyWorld
      (((New.Init unreachableWorld {} []).state.AddRouter (some demoRouter)).1.Start
        readyWorld).state demoRouter 300000000000 (by rfl) (by decide)⟩

theorem RequestMessage_GetMsg_of_some (r : RequestMessage) (st : Stamp) (m : RuleMsg)
    (h : r.msg = some m) : r.GetMsg st = (r, m) := by
  simp [RequestMessage.GetMsg, h]

theorem ReqOp_apply_msg (op : ReqOp) (r : RequestMessage) (m : RuleMsg)
    (h : r.msg = some m) : (op.apply r).msg = some m := by
  cases op with
  | getMsg st => simp [ReqOp.apply, RequestMessage.GetMsg, h]
  | setBody body => simpa [ReqOp.apply, RequestMessage.SetBody] using h
  | setStatusCode n => simpa [ReqOp.apply, RequestMessage.SetStatusCode] using h
  | setError e => simpa [ReqOp.apply, RequestMessage.SetError] using h
  | headers =>
      show (r.Headers.1).msg = some m
      unfold RequestMessage.Headers
      cases r.headers with
      | none => exact h
      | some hs => exact h

theorem after_msg (ops : List ReqOp) (r : RequestMessage) (m : RuleMsg)
    (h : r.msg = some m) : (r.after ops).msg = some m := by
  induction ops generalizing r with
  | nil => simpa [RequestMessage.after] using h
  | cons op rest ih =>
      have := ih (op.apply r) (ReqOp_apply_msg op r m h)
      simpa [RequestMessage.after] using this

theorem base64Std_length (b : Bytes) : (base64Std b).length = 4 * ((b.length + 2) / 3) := by
  induction b using base64Std.induct with
  | case1 a b c rest ih =>
      simp only [base64Std, List.length_cons, ih]
      omega
  | case2 a b => simp [base64Std]
  | case3 a => simp [base64Std]
  | case4 => simp [base64Std]

theorem jsonMarshal_ne_string (b : GoBytes) : jsonMarshal b ≠ stringOfBytes b := by
  cases b with
  | none => decide
  | some l =>
      intro h
      have hl := congrArg List.length h
      simp [jsonMarshal, stringOfBytes, base64Std_length] at hl
      omega

/-- C9: on a request message with no message set, `GetMsg` returns a message
of type `BEANSTALKD_DATA` whose metadata is the stored statistics and whose
data is the body bytes as a string, and stores it; after any further calls of
`GetMsg`, `SetBody`, `SetStatusCode`, `SetError` and `Headers`, `GetMsg` still
returns that message, and after `SetMsg` it returns the message given. -/
theorem RequestMessage_GetMsg_cached (r : RequestMessage) (st : Stamp) (h : r.msg = none) :
    (r.GetMsg st).2.MsgType = "BEANSTALKD_DATA"
    ∧ (r.GetMsg st).2.Metadata = r.stats
    ∧ (r.GetMsg st).2.Data = stringOfBytes r.body
    ∧ (∀ b, r.body = some b → (r.GetMsg st).2.Data = b)
    ∧ (r.GetMsg st).1.msg = some (r.GetMsg st).2
    ∧ (∀ (ops : List ReqOp) (st2 : Stamp),
        (((r.GetMsg st).1.after ops).GetMsg st2).2 = (r.GetMsg st).2)
    ∧ (∀ (body : GoBytes) (st2 : Stamp),
        (((r.GetMsg st).1.SetBody body).GetMsg st2).2 = (r.GetMsg st).2)
    ∧ (∀ (ops : List ReqOp) (m : RuleMsg) (st2 : Stamp),
        ((((r.GetMsg st).1.after ops).SetMsg (some m)).GetMsg st2).2 = m) := by
  have hc : (r.GetMsg st).1.msg = some (r.GetMsg st).2 := by
    simp [RequestMessage.GetMsg, h]
  refine ⟨?_, ?_, ?_, ?_, hc, ?_, ?_, ?_⟩
  · simp [RequestMessage.GetMsg, h, NewMsg, BEANSTALKD_DATA_MSG_TYPE]
  · simp [RequestMessage.GetMsg, h, NewMsg]
  · simp [RequestMessage.GetMsg, h, NewMsg, RequestMessage.Body]
  · intro b hb
    simp [RequestMessage.GetMsg, h, NewMsg, RequestMessage.Body, hb, stringOfBytes]
  · intro ops st2
    rw [RequestMessage_GetMsg_of_some _ st2 _ (after_msg ops _ _ hc)]
  · intro body st2
    have hb : ((r.GetMsg st).1.SetBody body).msg = some (r.GetMsg st).2 :=
      after_msg [ReqOp.setBody body] _ _ hc
    rw [RequestMessage_GetMsg_of_some _ st2 _ hb]
  · intro ops m st2
    simp [RequestMessage.GetMsg, RequestMessage.SetMsg]

/-- Witness of C9: the request of the scenario, read, given another body, and
read again. -/
theorem RequestMessage_GetMsg_cached_witness :
    (((({ body := some (ascii "order-42"), stats := [("tube", "orders")] } :
          RequestMessage).GetMsg ⟨"id-1", 7⟩).1.SetBody (some (ascii "other"))).GetMsg
        ⟨"id-2", 9⟩).2
      = { Ts := 7, Id := "id-1", MsgType := "BEANSTALKD_DATA", DataType := "JSON",
          Metadata := [("tube", "orders")], Data := ascii "order-42" } :=
  ((RequestMessage_GetMsg_cached
      { body := some (ascii "order-42"), stats := [("tube", "orders")] } ⟨"id-1", 7⟩
      rfl).2.2.2.2.2.2.1 (some (ascii "other")) ⟨"id-2", 9⟩).trans (by decide)

/-- C10: on a response message with no message set, the data of the message
`GetMsg` builds is `string(Body())`, the JSON text of the stored bytes (for a
non-nil payload its base64 encoding between double quotes), and it is never
the payload text; so it differs from the data of the message any request
holding the same bytes builds. -/
theorem ResponseMessage_GetMsg_data (r : ResponseMessage) (st : Stamp) (h : r.msg = none) :
    (r.GetMsg st).2.Data = stringOfBytes r.Body
    ∧ (r.GetMsg st).2.Data = jsonMarshal r.body
    ∧ (∀ b, r.body = some b → (r.GetMsg st).2.Data = quote :: (base64Std b ++ [quote]))
    ∧ (r.GetMsg st).2.Data ≠ stringOfBytes r.body
    ∧ (∀ (q : RequestMessage) (st2 : Stamp), q.msg = none → q.body = r.body →
        (r.GetMsg st).2.Data ≠ (q.GetMsg st2).2.Data) := by
  have hd : (r.GetMsg st).2.Data = jsonMarshal r.body := by
    simp [ResponseMessage.GetMsg, h, NewMsg, ResponseMessage.Body, stringOfBytes]
  refine ⟨?_, hd, ?_, ?_, ?_⟩
  · simp [ResponseMessage.GetMsg, h, NewMsg]
  · intro b hb
    rw [hd, hb]
    rfl
  · rw [hd]
    exact jsonMarshal_ne_string r.body
  · intro q st2 hq hb
    have hqd : (q.GetMsg st2).2.Data = stringOfBytes r.body := by
      simp [RequestMessage.GetMsg, hq, NewMsg, RequestMessage.Body, hb]
    rw [hd, hqd]
    exact jsonMarshal_ne_string r.body

/-- Witness of C10: the response of the scenario; its message data is the
quoted text `b3JkZXItNDI=`, the request's is `order-42`. -/
theorem ResponseMessage_GetMsg_data_witness :
    (({ body := some (ascii "order-42") } : ResponseMessage).GetMsg ⟨"id-1", 7⟩).2.Data
        = quote :: (ascii "b3JkZXItNDI=" ++ [quote])
    ∧ (({ body := some (ascii "order-42") } : ResponseMessage).GetMsg ⟨"id-1", 7⟩).2.Data
        ≠ (({ body := some (ascii "order-42") } : RequestMessage).GetMsg ⟨"id-2", 7⟩).2.Data :=
  ⟨((ResponseMessage_GetMsg_data { body := some (ascii "order-42") } ⟨"id-1", 7⟩ rfl).2.1).trans
      (by decide),
    (ResponseMessage_GetMsg_data { body := some (ascii "order-42") } ⟨"id-1", 7⟩ rfl).2.2.2.2
      { body := some (ascii "order-42") } ⟨"id-2", 7⟩ rfl rfl⟩

end Beanstalkd
